import Mathlib

/-!
Verification of the kajson type-tagged JSON codec (Pipelex/kajson).

Shallow embedding of the decoder (`src/kajson/json_decoder.py`), the
built-in date codec (`src/kajson/kajson.py`) and the manager
(`src/kajson/kajson_manager.py`).  Python dictionaries are modelled as
association lists with unique keys (Python dicts cannot hold duplicate
keys); Python exceptions are modelled with an explicit error type and
`Except`; external capabilities of a resolved class (pydantic
validation, constructors, the optional decode hook) are fields of a
`PyClass` record, each a total Lean function returning `Except`.
-/

namespace Kajson

/-- Python-ish runtime values, at the granularity the decoder inspects. -/
inductive PyValue where
  | vNone : PyValue
  | vBool : Bool → PyValue
  | vInt : Int → PyValue
  | vStr : String → PyValue
  | vList : List PyValue → PyValue
  | vDict : List (String × PyValue) → PyValue
  | vDate : Nat → Nat → Nat → PyValue
  | vObj : String → List (String × PyValue) → PyValue

open PyValue

/-- A Python dict (string keys, as produced by the JSON parser). -/
abbrev PyDict := List (String × PyValue)

/-- Key lookup in a dict (`the_dict[k]` / `k in the_dict`). -/
def dictGet : PyDict → String → Option PyValue
  | [], _ => none
  | (k, v) :: rest, key => if k = key then some v else dictGet rest key

/-- Key removal, as done by `the_dict.pop(k)`.  On the duplicate-free
association lists that model Python dicts, removing every pair with the
key coincides with removing the single entry the dict holds. -/
def dictRemove : PyDict → String → PyDict
  | [], _ => []
  | (k, v) :: rest, key =>
      if k = key then dictRemove rest key else (k, v) :: dictRemove rest key

theorem dictGet_dictRemove_self (d : PyDict) (key : String) :
    dictGet (dictRemove d key) key = none := by
  induction d with
  | nil => rfl
  | cons kv rest ih =>
      by_cases h : kv.1 = key
      · simpa [dictRemove, h] using ih
      · simp [dictRemove, dictGet, h, ih]

theorem dictGet_dictRemove_other (d : PyDict) (key k : String) (h : k ≠ key) :
    dictGet (dictRemove d key) k = dictGet d k := by
  induction d with
  | nil => rfl
  | cons kv rest ih =>
      by_cases hk : kv.1 = key
      · simp [dictRemove, dictGet, hk, Ne.symm h, h, ih]
      · by_cases hk2 : kv.1 = k
        · simp [dictRemove, dictGet, hk, hk2, h, ih]
        · simp [dictRemove, dictGet, hk, hk2, h, ih]

/-! ### Decimal strings

Embeddings of the Python string operations the date codec relies on:
fixed-width decimal rendering (CPython prints a date with
`"%04d-%02d-%02d"`), `str.split` with a one-character separator, and
`int()` applied to a non-empty decimal digit string. -/

/-- The decimal digit character for `n % 10`. -/
def digitChar : Nat → Char
  | 0 => '0'
  | 1 => '1'
  | 2 => '2'
  | 3 => '3'
  | 4 => '4'
  | 5 => '5'
  | 6 => '6'
  | 7 => '7'
  | 8 => '8'
  | _ => '9'

/-- Numeric value of a decimal digit character, as `int()` sees it. -/
def charToDigit (c : Char) : Nat := c.toNat - 48

/-- `int()` on a string of decimal digits (the only shape the date
decoder feeds it): left fold over the digits. -/
def parseNat (l : List Char) : Nat :=
  l.foldl (fun a c => a * 10 + charToDigit c) 0

/-- Embedding of Python `s.split(sep)` for a one-character separator:
splits on every occurrence, keeping empty pieces. -/
def splitOnChar (sep : Char) : List Char → List (List Char)
  | [] => [[]]
  | c :: cs =>
      if c = sep then [] :: splitOnChar sep cs
      else
        match splitOnChar sep cs with
        | [] => [[c]]
        | g :: gs => (c :: g) :: gs

theorem charToDigit_digitChar (n : Nat) (h : n < 10) :
    charToDigit (digitChar n) = n := by
  interval_cases n <;> rfl

theorem digitChar_ne_dash (n : Nat) : digitChar n ≠ '-' := by
  match n with
  | 0 => decide
  | 1 => decide
  | 2 => decide
  | 3 => decide
  | 4 => decide
  | 5 => decide
  | 6 => decide
  | 7 => decide
  | 8 => decide
  | n + 9 =>
      have h9 : digitChar (n + 9) = '9' := rfl
      rw [h9]
      decide

theorem splitOnChar_nil_of_not_mem (sep : Char) (l : List Char)
    (h : sep ∉ l) : splitOnChar sep l = [l] := by
  induction l with
  | nil => rfl
  | cons c cs ih =>
      have hc : c ≠ sep := fun hc => h (hc ▸ List.mem_cons_self c cs)
      have hcs : sep ∉ cs := fun hm => h (List.mem_cons_of_mem c hm)
      simp [splitOnChar, hc, ih hcs]

theorem splitOnChar_append_sep (sep : Char) (l1 l2 : List Char)
    (h : sep ∉ l1) :
    splitOnChar sep (l1 ++ sep :: l2) = l1 :: splitOnChar sep l2 := by
  induction l1 with
  | nil => simp [splitOnChar]
  | cons c cs ih =>
      have hc : c ≠ sep := fun hc => h (hc ▸ List.mem_cons_self c cs)
      have hcs : sep ∉ cs := fun hm => h (List.mem_cons_of_mem c hm)
      have := ih hcs
      simp [splitOnChar, hc, this]

/-! ### Python exceptions -/

/-- The exception kinds the decoder distinguishes.  `except ValidationError`
clauses catch exactly the `validationError` kind; `except AttributeError`
catches `attributeError`; a bare `except Exception` catches every kind.
`kajsonDecoderError` is `kajson.exceptions.KajsonDecoderError`. -/
inductive PyError where
  | keyError : String → PyError
  | attributeError : String → PyError
  | validationError : String → PyError
  | runtimeError : String → PyError
  | kajsonDecoderError : String → PyError
  | exn : String → PyError

/-- Message text carried by an exception, as interpolated into decoder
error messages via Python f-strings. -/
def errText : PyError → String
  | .keyError s => "KeyError: " ++ s
  | .attributeError s => "AttributeError: " ++ s
  | .validationError s => s
  | .runtimeError s => s
  | .kajsonDecoderError s => s
  | .exn s => s

/-! ### Classes, modules and the decoding context

A `PyClass` records exactly the capabilities `universal_decoder` probes
on a resolved class.  Python raises on a capability the class lacks;
here each fallible capability is a total function into `Except PyError`.
`jsonDecodeHook` is `getattr(the_class, "__json_decode__")`: `none`
models the `AttributeError` of a class without the hook. -/
structure PyClass where
  /-- The class short name (`cls.__name__`), interpolated in messages. -/
  name : String
  /-- Identity key of the class object; registered decoder functions are
  keyed by the exact runtime class, modelled by this key. -/
  key : String
  /-- `__json_decode__` class attribute, if any. -/
  jsonDecodeHook : Option (PyDict → Except PyError PyValue)
  /-- `issubclass(the_class, RootModel)` -/
  isRootModel : Bool
  /-- `issubclass(the_class, BaseModel)` -/
  isBaseModel : Bool
  /-- `the_class.model_validate(the_dict)` (pydantic) -/
  modelValidateDict : PyDict → Except PyError PyValue
  /-- `the_class.model_validate(obj=obj)` (pydantic re-validation) -/
  modelValidateObj : PyValue → Except PyError PyValue
  /-- `the_class(**the_dict)` -/
  ctorKwargs : PyDict → Except PyError PyValue
  /-- `obj = the_class(); obj.__dict__ = the_dict; obj` -/
  ctorDefaultPopulate : PyDict → Except PyError PyValue

/-- A Python module: its `__name__` and the classes reachable via
`getattr`. -/
structure PyModule where
  name : String
  members : List (String × PyClass)

/-- A registered decoding function together with its `__name__`
(interpolated into failure messages). -/
structure DecoderEntry where
  funcName : String
  fn : PyDict → Except PyError PyValue

/-- First-match lookup in a name-keyed association list. -/
def assocFind {α : Type} : List (String × α) → String → Option α
  | [], _ => none
  | (k, v) :: rest, key => if k = key then some v else assocFind rest key

/-- The state `universal_decoder` runs against. -/
structure DecodeCtx where
  /-- The module objects bound in the `globals()` of `json_decoder.py` itself.
  In the real program this list is exactly the modules that file
  imports: `importlib`, `json`, `logging`, `types`, `warnings`. -/
  decoderGlobals : List PyModule
  /-- `sys.modules`: every module imported anywhere in the running
  process.  `universal_decoder` never consults it; it is carried here
  only so that statements can speak about it. -/
  sysModules : List (String × PyModule)
  /-- The name table of the active class registry.
  Modelled from the spec: `ClassRegistry.get_class`
  (`src/kajson/class_registry.py` is not in the source tree); per spec
  section 4.2 the registry is a name-to-type table whose `get` is a
  non-throwing lookup returning the type or `None`. -/
  registry : List (String × PyClass)
  /-- Modules `importlib.import_module` can load, with their classes.
  A name absent here models an import failure. -/
  importable : List (String × PyModule)
  /-- `UniversalJSONDecoder._decoders`, keyed by exact class. -/
  decoders : List (String × DecoderEntry)
  /-- The module-level flag `IS_DECODER_FALLBACK_ENABLED`. -/
  isFallbackEnabled : Bool

/-- `src/kajson/json_decoder.py` line 36: the decode-side fallback flag
as initialised at import time. -/
def IS_DECODER_FALLBACK_ENABLED : Bool := false

/-- `_get_imported_modules()`: scans `globals().values()` of
`json_decoder.py` for module objects and keys them by `__name__`. -/
def getImportedModules (globalsModules : List PyModule) :
    List (String × PyModule) :=
  globalsModules.map (fun m => (m.name, m))

/-- Display of a tag value inside an error message (`f"...{module_name}..."`). -/
def tagText : PyValue → String
  | .vStr s => s
  | _ => "<non-string tag>"

/-- `getattr(module, class_name)`: `class_name` must be a string naming
a member; otherwise Python raises (`TypeError`/`AttributeError`), which
`universal_decoder` does not catch. -/
def memberFind (m : PyModule) : PyValue → Option PyClass
  | .vStr s => assocFind m.members s
  | _ => none

/-- Third resolution step, `universal_decoder` lines 127-136:
`importlib.import_module(module_name)` wrapped in `try ... except
Exception` re-raised as `KajsonDecoderError`, then `getattr` (whose
failure the code does not catch). -/
def resolveClassImport (ctx : DecodeCtx) (moduleVal classVal : PyValue) :
    Except PyError PyClass :=
  match moduleVal with
  | .vStr mn =>
      match assocFind ctx.importable mn with
      | some m =>
          match memberFind m classVal with
          | some c => .ok c
          | none =>
              .error (.attributeError
                ("module " ++ mn ++ " has no attribute " ++ tagText classVal))
      | none =>
          .error (.kajsonDecoderError
            ("Error while trying to import module " ++ mn))
  | _ =>
      .error (.kajsonDecoderError
        ("Error while trying to import module " ++ tagText moduleVal))

/-- Second resolution step, lines 124-126: class registry lookup by the
class name (a non-matching or non-string name yields `None` and falls
through to the dynamic import). -/
def resolveClassFallback (ctx : DecodeCtx) (moduleVal classVal : PyValue) :
    Except PyError PyClass :=
  match classVal with
  | .vStr cn =>
      match assocFind ctx.registry cn with
      | some c => .ok c
      | none => resolveClassImport ctx moduleVal classVal
  | _ => resolveClassImport ctx moduleVal classVal

/-- Decode-time type resolution, `universal_decoder` lines 121-136:
first the modules visible in the own `globals()` of the decoder module, then
the class registry, then a dynamic import whose failure is wrapped in a
`KajsonDecoderError`. -/
def resolveClass (ctx : DecodeCtx) (moduleVal classVal : PyValue) :
    Except PyError PyClass :=
  match moduleVal with
  | .vStr mn =>
      match assocFind (getImportedModules ctx.decoderGlobals) mn with
      | some m =>
          match memberFind m classVal with
          | some c => .ok c
          | none =>
              .error (.attributeError
                ("module " ++ mn ++ " has no attribute " ++ tagText classVal))
      | none => resolveClassFallback ctx moduleVal classVal
  | _ => resolveClassFallback ctx moduleVal classVal

/-! ### Reconstruction strategies (`universal_decoder` lines 138-227) -/

/-- Message raised when a registered decoding function fails
(line 144); it names the failing function and the target type. -/
def decodingFunctionFailedMsg (funcName clsName exc : String) : String :=
  "Decoding function " ++ funcName ++ " used for type " ++ clsName ++
    " raised an exception: " ++ exc ++ "."

/-- Message raised when `__json_decode__` fails (line 156). -/
def jsonDecodeHookFailedMsg (clsName exc : String) : String :=
  "Static method __json_deconde__ used for type " ++ clsName ++
    " raised an exception: " ++ exc ++ "."

/-- Message for a `ValidationError` from `the_class(**the_dict)` on a
`RootModel` (line 171). -/
def rootModelCreateFailedMsg (clsName exc : String) : String :=
  "Error: creating root_model " ++ clsName ++ ": " ++ exc

/-- Message for a `ValidationError` from re-validating a constructed
`RootModel` (line 181). -/
def rootModelPostValidateFailedMsg (clsName exc : String) : String :=
  "Error: post validate root_model " ++ clsName ++ ": " ++ exc

/-- Message for a `ValidationError` from `model_validate(the_dict)` on a
`BaseModel` (line 190); logged, then the kwargs constructor is retried. -/
def baseModelValidateFailedMsg (clsName exc : String) : String :=
  "Error: model_validate for " ++ clsName ++ ": " ++ exc

/-- Message raised when the kwargs-constructor retry on a `BaseModel`
fails with a `ValidationError` (line 195). -/
def baseModelKwargsFailedMsg (clsName exc : String) : String :=
  "Error while trying to instantiate using kwargs " ++ clsName ++ ": " ++ exc

/-- Message raised when re-validating the kwargs-constructed `BaseModel`
fails with a `ValidationError` (line 204). -/
def baseModelPostValidateFailedMsg (clsName exc : String) : String :=
  "Error while trying to post validate base_model " ++ clsName ++ ": " ++ exc

/-- Last two strategies and the last-resort degrade, lines 211-227:
`the_class(**the_dict)` under `except Exception: pass`, then default
construction plus `__dict__` replacement under `except Exception: pass`,
then the raw dict. -/
def decodeStageCtors (c : PyClass) (d : PyDict) : Except PyError PyValue :=
  match c.ctorKwargs d with
  | .ok v => .ok v
  | .error _ =>
      match c.ctorDefaultPopulate d with
      | .ok v => .ok v
      | .error _ => .ok (.vDict d)

/-- Pydantic branches, lines 162-209.  `RootModel` is checked first;
each branch catches only `ValidationError` (any other exception
propagates), re-raising as `KajsonDecoderError`. -/
def decodeStageModels (c : PyClass) (d : PyDict) : Except PyError PyValue :=
  if c.isRootModel then
    match c.ctorKwargs d with
    | .ok obj =>
        match c.modelValidateObj obj with
        | .ok _ => .ok obj
        | .error (.validationError ve) =>
            .error (.kajsonDecoderError
              (rootModelPostValidateFailedMsg c.name ve))
        | .error e => .error e
    | .error (.validationError ve) =>
        .error (.kajsonDecoderError (rootModelCreateFailedMsg c.name ve))
    | .error e => .error e
  else if c.isBaseModel then
    match c.modelValidateDict d with
    | .ok v => .ok v
    | .error (.validationError _) =>
        match c.ctorKwargs d with
        | .ok obj =>
            match c.modelValidateObj obj with
            | .ok _ => .ok obj
            | .error (.validationError ve) =>
                .error (.kajsonDecoderError
                  (baseModelPostValidateFailedMsg c.name ve))
            | .error e => .error e
        | .error (.validationError ve) =>
            .error (.kajsonDecoderError (baseModelKwargsFailedMsg c.name ve))
        | .error e => .error e
    | .error e => .error e
  else decodeStageCtors c d

/-- `__json_decode__` strategy, lines 150-160.  A missing hook, or an
`AttributeError` escaping the hook, is swallowed (`except
AttributeError: pass`); any other exception is fatal unless the
fallback flag downgrades it to a warning and the chain continues. -/
def decodeStageHook (ctx : DecodeCtx) (c : PyClass) (d : PyDict) :
    Except PyError PyValue :=
  match c.jsonDecodeHook with
  | none => decodeStageModels c d
  | some hook =>
      match hook d with
      | .ok v => .ok v
      | .error (.attributeError _) => decodeStageModels c d
      | .error e =>
          if ctx.isFallbackEnabled then decodeStageModels c d
          else
            .error (.kajsonDecoderError
              (jsonDecodeHookFailedMsg c.name (errText e)))

/-- The whole reconstruction chain applied to a resolved class and the
tag-stripped content dict, lines 138-227.  The registered-decoder
strategy comes first; its failure is fatal (a `KajsonDecoderError`
naming the function and the type) unless `IS_DECODER_FALLBACK_ENABLED`
turns it into a warning and the chain continues. -/
def decodeForClass (ctx : DecodeCtx) (c : PyClass) (d : PyDict) :
    Except PyError PyValue :=
  match assocFind ctx.decoders c.key with
  | some entry =>
      match entry.fn d with
      | .ok v => .ok v
      | .error e =>
          if ctx.isFallbackEnabled then decodeStageHook ctx c d
          else
            .error (.kajsonDecoderError
              (decodingFunctionFailedMsg entry.funcName c.name (errText e)))
  | none => decodeStageHook ctx c d

/-- `UniversalJSONDecoder.universal_decoder`, lines 93-227.  The first
component is the returned value or the raised exception; the second is
the final contents of the dict object the caller passed in (the code
mutates it in place with `pop`). -/
def universal_decoder (ctx : DecodeCtx) (d : PyDict) :
    Except PyError PyValue × PyDict :=
  match dictGet d "__class__" with
  | none => (.ok (.vDict d), d)
  | some classVal =>
      let d1 := dictRemove d "__class__"
      match dictGet d1 "__module__" with
      | none => (.error (.keyError "__module__"), d1)
      | some moduleVal =>
          let d2 := dictRemove d1 "__module__"
          match resolveClass ctx moduleVal classVal with
          | .error e => (.error e, d2)
          | .ok c => (decodeForClass ctx c d2, d2)

/-! ### The built-in date codec (`src/kajson/kajson.py` lines 114-129) -/

/-- Gregorian leap year, as `datetime` implements it. -/
def isLeapYear (y : Nat) : Bool :=
  y % 4 = 0 && (y % 100 ≠ 0 || y % 400 = 0)

/-- Days in a month, as `datetime` implements it. -/
def daysInMonth (y m : Nat) : Nat :=
  if m = 2 then (if isLeapYear y then 29 else 28)
  else if m = 4 || m = 6 || m = 9 || m = 11 then 30
  else 31

/-- The argument check of the `datetime.date` constructor
(`MINYEAR = 1`, `MAXYEAR = 9999`). -/
def isValidDate (y m d : Nat) : Bool :=
  1 ≤ y && y ≤ 9999 && 1 ≤ m && m ≤ 12 && 1 ≤ d && d ≤ daysInMonth y m

/-- `datetime.date(y, m, d)`: validates the ranges, raising
`ValueError` otherwise. -/
def pyDate (y m d : Nat) : Except PyError PyValue :=
  if isValidDate y m d then .ok (.vDate y m d)
  else .error (.exn "ValueError: invalid date")

/-- Two-digit zero-padded decimal (`"%02d"` for values below 100). -/
def pad2 (n : Nat) : List Char :=
  [digitChar (n / 10 % 10), digitChar (n % 10)]

/-- Four-digit zero-padded decimal (`"%04d"` for values below 10000). -/
def pad4 (n : Nat) : List Char :=
  [digitChar (n / 1000 % 10), digitChar (n / 100 % 10),
   digitChar (n / 10 % 10), digitChar (n % 10)]

/-- `str(datetime.date(y, m, d))`, i.e. `date.isoformat()`: CPython
renders `"%04d-%02d-%02d"`. -/
def dateIsoStr (y m d : Nat) : String :=
  String.mk (pad4 y ++ '-' :: (pad2 m ++ '-' :: pad2 d))

/-- `int()` applied to one piece of the split date string: accepts a
non-empty all-digit string (the shapes sign/whitespace handling of
`int()` never sees here), raising `ValueError` otherwise. -/
def pyIntOfDigits (l : List Char) : Except PyError Nat :=
  if l ≠ [] ∧ l.all Char.isDigit then .ok (parseNat l)
  else .error (.exn "ValueError: invalid literal for int")

/-- `json_encode_date` (kajson.py line 114): the content mapping
`d : str(d)` keyed by `date`. -/
def json_encode_date (y m d : Nat) : PyDict :=
  [("date", .vStr (dateIsoStr y m d))]

/-- `json_decode_date` (kajson.py lines 122-126):
`year, month, day = map(int, d["date"].split("-"))` then
`datetime.date(year, month, day)`. -/
def json_decode_date (dct : PyDict) : Except PyError PyValue :=
  match dictGet dct "date" with
  | some (.vStr s) =>
      match splitOnChar '-' s.data with
      | [ys, ms, ds] =>
          match pyIntOfDigits ys, pyIntOfDigits ms, pyIntOfDigits ds with
          | .ok y, .ok m, .ok dd => pyDate y m dd
          | _, _, _ => .error (.exn "ValueError: invalid literal for int")
      | _ => .error (.exn "ValueError: cannot unpack")
  | some _ => .error (.attributeError "value has no attribute split")
  | none => .error (.keyError "date")

/-- Modelled from the spec: the tag injection of
`UniversalJSONEncoder.default` (`src/kajson/json_encoder.py` is not in
the source tree).  Per spec section 4.1 step 1, the registered
output mapping of the encoder becomes the node content and the reserved
type-name/namespace keys are injected afterwards when the function did
not supply its own; `json_encode_date` supplies none, and the runtime
type `datetime.date` has name `date` in module `datetime`. -/
def dumps_date (y m d : Nat) : PyDict :=
  json_encode_date y m d ++
    [("__class__", .vStr "date"), ("__module__", .vStr "datetime")]

/-- The `datetime.date` class as the decoder probes it: no
`__json_decode__` hook, not a pydantic model, and both constructor
strategies raise `TypeError` on the encoded content (`date(**content)`
rejects the keyword `date`; `date()` lacks its required arguments).
The pydantic capabilities are behind the `false` flags and never
invoked. -/
def dateClass : PyClass where
  name := "date"
  key := "datetime.date"
  jsonDecodeHook := none
  isRootModel := false
  isBaseModel := false
  modelValidateDict := fun _ => .error (.attributeError "no model_validate")
  modelValidateObj := fun _ => .error (.attributeError "no model_validate")
  ctorKwargs := fun _ =>
    .error (.exn "TypeError: unexpected keyword argument date")
  ctorDefaultPopulate := fun _ =>
    .error (.exn "TypeError: function missing required argument year")

/-- The `datetime` module, restricted to the member the date claims
resolve. -/
def datetimeModule : PyModule := ⟨"datetime", [("date", dateClass)]⟩

/-- A module object whose members the claims never consult. -/
def stubModule (n : String) : PyModule := ⟨n, []⟩

/-- The module objects bound in the `globals()` of `json_decoder.py`: its
five top-level module imports.  Their members are never consulted by
the claims proved here and are left empty. -/
def jsonDecoderGlobalsModules : List PyModule :=
  [stubModule "importlib", stubModule "json", stubModule "logging",
   stubModule "types", stubModule "warnings"]

/-- The runtime state in which the built-in date codec operates after
`import kajson`: `json_decode_date` is registered for `datetime.date`
(kajson.py line 129), the class registry is fresh, `datetime` is
importable, and the fallback flag has its initial value. -/
def dateCtx : DecodeCtx where
  decoderGlobals := jsonDecoderGlobalsModules
  sysModules := [("datetime", datetimeModule)]
  registry := []
  importable := [("datetime", datetimeModule)]
  decoders := [("datetime.date", ⟨"json_decode_date", json_decode_date⟩)]
  isFallbackEnabled := IS_DECODER_FALLBACK_ENABLED

/-! ### The manager (`src/kajson/kajson_manager.py`) -/

/-- A class registry instance is its name table.
Modelled from the spec: `ClassRegistry` (`src/kajson/class_registry.py`
is not in the source tree); per spec sections 3 and 4.2 a registry is a
name-to-type lookup table, and a freshly constructed one holds no
entries. -/
abbrev ClassRegistryModel := List (String × PyClass)

/-- A `KajsonManager` object: it holds `_class_registry`. -/
structure KajsonManagerObj where
  classRegistry : ClassRegistryModel

/-- The class-level `KajsonManager._instance` reference. -/
abbrev ManagerClassState := Option KajsonManagerObj

/-- `KajsonManager.__init__` (lines 16-18): builds the held registry
(`class_registry or ClassRegistry()`) and unconditionally overwrites
the class-level `_instance` with the new object.  Returns the new
object and the new class state. -/
def kajsonManagerCreate (classRegistryArg : Option ClassRegistryModel)
    (_s : ManagerClassState) : KajsonManagerObj × ManagerClassState :=
  let m : KajsonManagerObj := ⟨classRegistryArg.getD []⟩
  (m, some m)

/-- `KajsonManager.get_instance` (lines 10-14): raises `RuntimeError`
when no instance is live. -/
def kajsonManagerGetInstance (s : ManagerClassState) :
    Except PyError KajsonManagerObj :=
  match s with
  | none => .error (.runtimeError "KajsonManager is not initialized")
  | some m => .ok m

/-- `KajsonManager.teardown` (lines 20-22). -/
def kajsonManagerTeardown (_s : ManagerClassState) : ManagerClassState :=
  none

/-- `KajsonManager.get_class_registry` (lines 24-26): delegates to
`get_instance`. -/
def kajsonManagerGetClassRegistry (s : ManagerClassState) :
    Except PyError ClassRegistryModel :=
  match kajsonManagerGetInstance s with
  | .ok m => .ok m.classRegistry
  | .error e => .error e

/-! ### Round-trip lemmas for the date codec -/

theorem digitChar_isDigit (n : Nat) : (digitChar n).isDigit = true := by
  match n with
  | 0 => decide
  | 1 => decide
  | 2 => decide
  | 3 => decide
  | 4 => decide
  | 5 => decide
  | 6 => decide
  | 7 => decide
  | 8 => decide
  | n + 9 =>
      have h9 : digitChar (n + 9) = '9' := rfl
      rw [h9]
      decide

theorem dash_not_mem_pad4 (n : Nat) : '-' ∉ pad4 n := by
  intro hmem
  simp only [pad4, List.mem_cons, List.not_mem_nil, or_false] at hmem
  rcases hmem with h | h | h | h <;> exact digitChar_ne_dash _ h.symm

theorem dash_not_mem_pad2 (n : Nat) : '-' ∉ pad2 n := by
  intro hmem
  simp only [pad2, List.mem_cons, List.not_mem_nil, or_false] at hmem
  rcases hmem with h | h <;> exact digitChar_ne_dash _ h.symm

theorem split_dateIsoStr (y m d : Nat) :
    splitOnChar '-' (dateIsoStr y m d).data = [pad4 y, pad2 m, pad2 d] := by
  show splitOnChar '-' (pad4 y ++ '-' :: (pad2 m ++ '-' :: pad2 d)) = _
  rw [splitOnChar_append_sep '-' _ _ (dash_not_mem_pad4 y),
    splitOnChar_append_sep '-' _ _ (dash_not_mem_pad2 m),
    splitOnChar_nil_of_not_mem '-' _ (dash_not_mem_pad2 d)]

theorem parseNat_pad4 (y : Nat) (h : y < 10000) : parseNat (pad4 y) = y := by
  have h1 : y / 1000 % 10 < 10 := Nat.mod_lt _ (by norm_num)
  have h2 : y / 100 % 10 < 10 := Nat.mod_lt _ (by norm_num)
  have h3 : y / 10 % 10 < 10 := Nat.mod_lt _ (by norm_num)
  have h4 : y % 10 < 10 := Nat.mod_lt _ (by norm_num)
  simp [parseNat, pad4, List.foldl, charToDigit_digitChar _ h1,
    charToDigit_digitChar _ h2, charToDigit_digitChar _ h3,
    charToDigit_digitChar _ h4]
  omega

theorem parseNat_pad2 (n : Nat) (h : n < 100) : parseNat (pad2 n) = n := by
  have h1 : n / 10 % 10 < 10 := Nat.mod_lt _ (by norm_num)
  have h2 : n % 10 < 10 := Nat.mod_lt _ (by norm_num)
  simp [parseNat, pad2, List.foldl, charToDigit_digitChar _ h1,
    charToDigit_digitChar _ h2]
  omega

theorem pyIntOfDigits_pad4 (y : Nat) (h : y < 10000) :
    pyIntOfDigits (pad4 y) = .ok y := by
  unfold pyIntOfDigits
  rw [if_pos ⟨by simp [pad4], by simp [pad4, digitChar_isDigit]⟩,
    parseNat_pad4 y h]

theorem pyIntOfDigits_pad2 (n : Nat) (h : n < 100) :
    pyIntOfDigits (pad2 n) = .ok n := by
  unfold pyIntOfDigits
  rw [if_pos ⟨by simp [pad2], by simp [pad2, digitChar_isDigit]⟩,
    parseNat_pad2 n h]

theorem daysInMonth_le_31 (y m : Nat) : daysInMonth y m ≤ 31 := by
  unfold daysInMonth
  split
  · split <;> omega
  · split <;> omega

theorem json_decode_date_json_encode_date (y m d : Nat)
    (h : isValidDate y m d = true) :
    json_decode_date (json_encode_date y m d) = .ok (.vDate y m d) := by
  simp only [isValidDate, Bool.and_eq_true, decide_eq_true_eq] at h
  obtain ⟨⟨⟨⟨⟨h1, h2⟩, h3⟩, h4⟩, h5⟩, h6⟩ := h
  have hy : y < 10000 := by omega
  have hm : m < 100 := by omega
  have hd : d < 100 := by
    have := daysInMonth_le_31 y m
    omega
  have hvalid : isValidDate y m d = true := by
    simp only [isValidDate, Bool.and_eq_true, decide_eq_true_eq]
    exact ⟨⟨⟨⟨⟨h1, h2⟩, h3⟩, h4⟩, h5⟩, h6⟩
  show json_decode_date [("date", .vStr (dateIsoStr y m d))] = _
  unfold json_decode_date
  rw [show dictGet [("date", .vStr (dateIsoStr y m d))] "date" =
      some (.vStr (dateIsoStr y m d)) from rfl]
  simp only [split_dateIsoStr, pyIntOfDigits_pad4 y hy,
    pyIntOfDigits_pad2 m hm, pyIntOfDigits_pad2 d hd, pyDate, hvalid,
    if_true]

theorem dictRemove_of_not_mem (d : PyDict) (key : String)
    (h : dictGet d key = none) : dictRemove d key = d := by
  induction d with
  | nil => rfl
  | cons kv rest ih =>
      by_cases hk : kv.1 = key
      · simp [dictGet, hk] at h
      · simp only [dictGet, hk, if_neg hk] at h
        simp [dictRemove, hk, ih h]

/-- The content mapping of a tagged node: the input dict after the two
`pop` calls of `universal_decoder`. -/
def stripTags (d : PyDict) : PyDict :=
  dictRemove (dictRemove d "__class__") "__module__"

/-- A class with no decode hook, no pydantic nature, and constructors
that raise `TypeError` on the dicts fed to them (the capabilities a
plain uninstantiable-from-content class exposes to the decoder). -/
def plainClass (nm k : String) : PyClass where
  name := nm
  key := k
  jsonDecodeHook := none
  isRootModel := false
  isBaseModel := false
  modelValidateDict := fun _ => .error (.attributeError "no model_validate")
  modelValidateObj := fun _ => .error (.attributeError "no model_validate")
  ctorKwargs := fun _ => .error (.exn "TypeError: unexpected keyword arguments")
  ctorDefaultPopulate := fun _ =>
    .error (.exn "TypeError: missing required arguments")

/-- Shared degrade computation: with both tags present, a resolved
class, and every reconstruction strategy failing, `universal_decoder`
returns the tag-stripped content dict without raising. -/
theorem universal_decoder_degrade_aux (ctx : DecodeCtx) (d : PyDict)
    (cv mv : PyValue) (c : PyClass) (e1 e2 : PyError)
    (hclass : dictGet d "__class__" = some cv)
    (hmod : dictGet (dictRemove d "__class__") "__module__" = some mv)
    (hres : resolveClass ctx mv cv = .ok c)
    (hNoDecoder : assocFind ctx.decoders c.key = none)
    (hNoHook : c.jsonDecodeHook = none)
    (hNotRoot : c.isRootModel = false)
    (hNotBase : c.isBaseModel = false)
    (hCtor : c.ctorKwargs (stripTags d) = .error e1)
    (hPopulate : c.ctorDefaultPopulate (stripTags d) = .error e2) :
    universal_decoder ctx d = (.ok (.vDict (stripTags d)), stripTags d) := by
  unfold universal_decoder
  simp only [hclass, hmod, hres]
  unfold decodeForClass decodeStageHook decodeStageModels decodeStageCtors
  simp only [hNoDecoder, hNoHook, hNotRoot, hNotBase]
  have hC : c.ctorKwargs (dictRemove (dictRemove d "__class__") "__module__") =
      .error e1 := hCtor
  have hP : c.ctorDefaultPopulate
      (dictRemove (dictRemove d "__class__") "__module__") = .error e2 :=
    hPopulate
  simp only [hC, hP, Bool.false_eq_true, if_false]
  rfl

theorem decodeForClass_registered_ok (ctx : DecodeCtx) (c : PyClass)
    (entry : DecoderEntry) (d : PyDict) (v : PyValue)
    (hfind : assocFind ctx.decoders c.key = some entry)
    (hok : entry.fn d = .ok v) :
    decodeForClass ctx c d = .ok v := by
  unfold decodeForClass
  simp only [hfind, hok]

/-! ### The claims -/

/-- C1: Round-trip identity for the built-in calendar-date codec.  For
every value of exact runtime type `datetime.date` (every valid
year/month/day triple), serialising with the registered date encoder —
which emits the ISO date string and receives the injected type tags —
and decoding the resulting tree with `universal_decoder` in the state
established by `import kajson` reconstructs an equal `datetime.date`
via the registered date decoder.  (`dumps`/`loads` delegate the
text-tree conversion to the standard JSON engine, and the tagged date
node is the only object node of the tree, so the text round trip is the
identity on the tree and `loads` is `universal_decoder` on this node.) -/
theorem date_codec_roundtrip (y m d : Nat) (h : isValidDate y m d = true) :
    universal_decoder dateCtx (dumps_date y m d) =
      (.ok (.vDate y m d), json_encode_date y m d) := by
  have key : universal_decoder dateCtx (dumps_date y m d) =
      (decodeForClass dateCtx dateClass [("date", .vStr (dateIsoStr y m d))],
        [("date", .vStr (dateIsoStr y m d))]) := rfl
  rw [key,
    decodeForClass_registered_ok dateCtx dateClass
      ⟨"json_decode_date", json_decode_date⟩ _ _ rfl
      (json_decode_date_json_encode_date y m d h)]
  rfl

/-- Witness for C1 at the concrete date 2024-02-29. -/
theorem date_codec_roundtrip_witness :
    isValidDate 2024 2 29 = true ∧
      universal_decoder dateCtx (dumps_date 2024 2 29) =
        (.ok (.vDate 2024 2 29), json_encode_date 2024 2 29) :=
  ⟨by decide, date_codec_roundtrip 2024 2 29 (by decide)⟩

/-! ### C2: registry precedence during type resolution -/

/-- A class `Point` as defined in an imported user module `mymod`. -/
def pointNamespaceClass : PyClass := plainClass "Point" "mymod.Point"

/-- A distinct class registered in the class registry under the same
name `Point`. -/
def pointRegistryClass : PyClass := plainClass "Point" "registry.Point"

/-- The user module `mymod`, holding `Point`. -/
def mymodModule : PyModule := ⟨"mymod", [("Point", pointNamespaceClass)]⟩

/-- A runtime state in which `mymod` has been imported by the
application (it sits in `sys.modules` and is importable) while the
registry also binds `Point`.  the globals of `json_decoder.py` itself still
hold only its five module imports. -/
def c2Ctx : DecodeCtx where
  decoderGlobals := jsonDecoderGlobalsModules
  sysModules := [("mymod", mymodModule)]
  registry := [("Point", pointRegistryClass)]
  importable := [("mymod", mymodModule)]
  decoders := []
  isFallbackEnabled := IS_DECODER_FALLBACK_ENABLED

/-- A hypothetical state in which `mymod` additionally sits among the
module objects of the own `globals()` of the decoder module. -/
def c2CtxB : DecodeCtx :=
  { c2Ctx with decoderGlobals := [mymodModule] }

/-- C2 counterexample: the module `mymod` is imported in the running
process (`sys.modules`) and `Point` is resolvable inside it, and
`Point` is also registered in the class registry — yet the decoder
resolves the node to the registry entry, not to the namespace type,
because the namespace-lookup step of `universal_decoder` consults only
the module objects in the `globals()` of `json_decoder.py` itself (its five
standard-library imports), never the process-wide module table. -/
theorem registry_precedence_counterexample :
    assocFind c2Ctx.sysModules "mymod" = some mymodModule ∧
    memberFind mymodModule (.vStr "Point") = some pointNamespaceClass ∧
    assocFind c2Ctx.registry "Point" = some pointRegistryClass ∧
    resolveClass c2Ctx (.vStr "mymod") (.vStr "Point") =
      .ok pointRegistryClass ∧
    pointRegistryClass.key ≠ pointNamespaceClass.key := by
  refine ⟨rfl, rfl, rfl, rfl, ?_⟩
  decide

/-- C2 (amended): namespace lookup wins over the registry exactly when
the declared namespace is among the module objects in the decoder
own `globals()` of the decoder module and the type name resolves inside it; for any
other namespace — even a module imported elsewhere in the running
process — a class registered under the type name is used; a dynamic
module import is attempted only when both fail. -/
theorem registry_precedence_amended (ctx : DecodeCtx) (mn cn : String) :
    (∀ m c, assocFind (getImportedModules ctx.decoderGlobals) mn = some m →
      memberFind m (.vStr cn) = some c →
      resolveClass ctx (.vStr mn) (.vStr cn) = .ok c) ∧
    (∀ c, assocFind (getImportedModules ctx.decoderGlobals) mn = none →
      assocFind ctx.registry cn = some c →
      resolveClass ctx (.vStr mn) (.vStr cn) = .ok c) ∧
    (assocFind (getImportedModules ctx.decoderGlobals) mn = none →
      assocFind ctx.registry cn = none →
      resolveClass ctx (.vStr mn) (.vStr cn) =
        resolveClassImport ctx (.vStr mn) (.vStr cn)) := by
  refine ⟨?_, ?_, ?_⟩
  · intro m c h1 h2
    unfold resolveClass
    simp only [h1, h2]
  · intro c h1 h2
    unfold resolveClass resolveClassFallback
    simp only [h1, h2]
  · intro h1 h2
    unfold resolveClass resolveClassFallback
    simp only [h1, h2]

/-- Witness for C2 (amended): with `mymod` among the decoder-module
globals the namespace type wins over the registry entry; with the real
decoder globals the registry entry wins. -/
theorem registry_precedence_amended_witness :
    resolveClass c2CtxB (.vStr "mymod") (.vStr "Point") =
      .ok pointNamespaceClass ∧
    resolveClass c2Ctx (.vStr "mymod") (.vStr "Point") =
      .ok pointRegistryClass :=
  ⟨(registry_precedence_amended c2CtxB "mymod" "Point").1
      mymodModule pointNamespaceClass rfl rfl,
    (registry_precedence_amended c2Ctx "mymod" "Point").2.1
      pointRegistryClass rfl rfl⟩

/-! ### C3: structured-record (BaseModel) decoding -/

/-- C3: for a resolved `BaseModel` subclass that is not a `RootModel`,
with no registered decoder and no `__json_decode__` hook, the decoder
first calls `model_validate` on the content mapping; on a
`ValidationError` it retries `the_class(**the_dict)` and explicitly
re-validates the result; each failing stage raises a
`KajsonDecoderError` whose message embeds the underlying validation
detail, and content whose final validation fails is never returned. -/
theorem basemodel_validate_retry_revalidate (ctx : DecodeCtx) (c : PyClass)
    (d : PyDict)
    (hNoDecoder : assocFind ctx.decoders c.key = none)
    (hNoHook : c.jsonDecodeHook = none)
    (hNotRoot : c.isRootModel = false)
    (hBase : c.isBaseModel = true) :
    (∀ v, c.modelValidateDict d = .ok v → decodeForClass ctx c d = .ok v) ∧
    (∀ e1 e2, c.modelValidateDict d = .error (.validationError e1) →
      c.ctorKwargs d = .error (.validationError e2) →
      decodeForClass ctx c d =
        .error (.kajsonDecoderError (baseModelKwargsFailedMsg c.name e2))) ∧
    (∀ e1 obj e3, c.modelValidateDict d = .error (.validationError e1) →
      c.ctorKwargs d = .ok obj →
      c.modelValidateObj obj = .error (.validationError e3) →
      decodeForClass ctx c d =
        .error
          (.kajsonDecoderError (baseModelPostValidateFailedMsg c.name e3))) ∧
    (∀ e1 obj w, c.modelValidateDict d = .error (.validationError e1) →
      c.ctorKwargs d = .ok obj →
      c.modelValidateObj obj = .ok w →
      decodeForClass ctx c d = .ok obj) ∧
    (∀ e, ∃ s, baseModelKwargsFailedMsg c.name e = s ++ e) ∧
    (∀ e, ∃ s, baseModelPostValidateFailedMsg c.name e = s ++ e) := by
  have hchain : decodeForClass ctx c d = decodeStageModels c d := by
    unfold decodeForClass decodeStageHook
    simp only [hNoDecoder, hNoHook]
  refine ⟨?_, ?_, ?_, ?_, fun e => ⟨_, rfl⟩, fun e => ⟨_, rfl⟩⟩
  · intro v hv
    rw [hchain]
    unfold decodeStageModels
    simp only [hNotRoot, hBase, hv, Bool.false_eq_true, if_false, if_true]
  · intro e1 e2 hv hk
    rw [hchain]
    unfold decodeStageModels
    simp only [hNotRoot, hBase, hv, hk, Bool.false_eq_true, if_false, if_true]
  · intro e1 obj e3 hv hk hr
    rw [hchain]
    unfold decodeStageModels
    simp only [hNotRoot, hBase, hv, hk, hr, Bool.false_eq_true, if_false,
      if_true]
  · intro e1 obj w hv hk hr
    rw [hchain]
    unfold decodeStageModels
    simp only [hNotRoot, hBase, hv, hk, hr, Bool.false_eq_true, if_false,
      if_true]

/-- A pydantic model with one field constrained to be nonnegative:
validation accepts the content only when the field `value` is a
nonnegative integer.  The plain constructor behaves like that of pydantic
(it, too, validates). -/
def mockPositiveModel : PyClass where
  name := "MockModelValid"
  key := "tests.unit.test_json_decoder.MockModelValid"
  jsonDecodeHook := none
  isRootModel := false
  isBaseModel := true
  modelValidateDict := fun d =>
    match dictGet d "value" with
    | some (.vInt n) =>
        if 0 ≤ n then .ok (.vObj "MockModelValid" d)
        else .error (.validationError "value must be greater than or equal to 0")
    | _ => .error (.validationError "value missing or not an int")
  modelValidateObj := fun v =>
    match v with
    | .vObj _ d =>
        match dictGet d "value" with
        | some (.vInt n) =>
            if 0 ≤ n then .ok v
            else
              .error
                (.validationError "value must be greater than or equal to 0")
        | _ => .error (.validationError "value missing or not an int")
    | _ => .error (.validationError "not a model instance")
  ctorKwargs := fun d =>
    match dictGet d "value" with
    | some (.vInt n) =>
        if 0 ≤ n then .ok (.vObj "MockModelValid" d)
        else .error (.validationError "value must be greater than or equal to 0")
    | _ => .error (.validationError "value missing or not an int")
  ctorDefaultPopulate := fun _ =>
    .error (.validationError "missing required fields")

/-- A decoding context holding nothing but the defaults. -/
def emptyCtx : DecodeCtx where
  decoderGlobals := jsonDecoderGlobalsModules
  sysModules := []
  registry := []
  importable := []
  decoders := []
  isFallbackEnabled := IS_DECODER_FALLBACK_ENABLED

/-- Witness for C3: on the constraint-violating content
`value = -5`, every stage fails and the decoder raises the
`KajsonDecoderError` embedding the constraint detail. -/
theorem basemodel_validate_retry_revalidate_witness :
    decodeForClass emptyCtx mockPositiveModel [("value", .vInt (-5))] =
      .error
        (.kajsonDecoderError
          (baseModelKwargsFailedMsg "MockModelValid"
            "value must be greater than or equal to 0")) :=
  (basemodel_validate_retry_revalidate emptyCtx mockPositiveModel
      [("value", .vInt (-5))] rfl rfl rfl rfl).2.1
    "value must be greater than or equal to 0"
    "value must be greater than or equal to 0" rfl rfl

/-! ### C4: unknown-type graceful degradation -/

/-- C4: a tagged node whose resolved class admits no reconstruction
strategy — no registered decoder, no `__json_decode__` hook, not a
pydantic model, and both constructor strategies raise — decodes to the
content mapping with the two reserved tag keys stripped, without
raising. -/
theorem unknown_type_degrade (ctx : DecodeCtx) (d : PyDict)
    (cv mv : PyValue) (c : PyClass) (e1 e2 : PyError)
    (hclass : dictGet d "__class__" = some cv)
    (hmod : dictGet (dictRemove d "__class__") "__module__" = some mv)
    (hres : resolveClass ctx mv cv = .ok c)
    (hNoDecoder : assocFind ctx.decoders c.key = none)
    (hNoHook : c.jsonDecodeHook = none)
    (hNotRoot : c.isRootModel = false)
    (hNotBase : c.isBaseModel = false)
    (hCtor : c.ctorKwargs (stripTags d) = .error e1)
    (hPopulate : c.ctorDefaultPopulate (stripTags d) = .error e2) :
    universal_decoder ctx d = (.ok (.vDict (stripTags d)), stripTags d) :=
  universal_decoder_degrade_aux ctx d cv mv c e1 e2 hclass hmod hres
    hNoDecoder hNoHook hNotRoot hNotBase hCtor hPopulate

/-- An unreconstructible class `Widget` registered in the class
registry. -/
def widgetClass : PyClass := plainClass "Widget" "ghost_mod.Widget"

/-- A state in which `Widget` is only reachable through the registry. -/
def c4Ctx : DecodeCtx where
  decoderGlobals := jsonDecoderGlobalsModules
  sysModules := []
  registry := [("Widget", widgetClass)]
  importable := []
  decoders := []
  isFallbackEnabled := IS_DECODER_FALLBACK_ENABLED

/-- Witness for C4: a tagged `Widget` node degrades to its content
mapping with the tag keys stripped. -/
theorem unknown_type_degrade_witness :
    universal_decoder c4Ctx
        [("__class__", .vStr "Widget"), ("__module__", .vStr "ghost_mod"),
          ("a", .vInt 1)] =
      (.ok (.vDict [("a", .vInt 1)]), [("a", .vInt 1)]) :=
  unknown_type_degrade c4Ctx
    [("__class__", .vStr "Widget"), ("__module__", .vStr "ghost_mod"),
      ("a", .vInt 1)]
    (.vStr "Widget") (.vStr "ghost_mod") widgetClass
    (.exn "TypeError: unexpected keyword arguments")
    (.exn "TypeError: missing required arguments")
    rfl rfl rfl rfl rfl rfl rfl rfl rfl

/-! ### C5: malformed enum node -/

/-- The enum class `SimpleEnum` as `universal_decoder` probes it: plain
`Enum` subclasses expose no `__json_decode__` hook and are not pydantic
models; `EnumMeta.__call__` accepts its value positionally, so
`SimpleEnum(**the_dict)` with keywords `_name_`/`_value_` raises
`TypeError`, as does the no-argument call `SimpleEnum()`. -/
def simpleEnumClass : PyClass where
  name := "SimpleEnum"
  key := "tests.unit.test_enum_serialization.SimpleEnum"
  jsonDecodeHook := none
  isRootModel := false
  isBaseModel := false
  modelValidateDict := fun _ => .error (.attributeError "no model_validate")
  modelValidateObj := fun _ => .error (.attributeError "no model_validate")
  ctorKwargs := fun _ =>
    .error (.exn "TypeError: unexpected keyword arguments")
  ctorDefaultPopulate := fun _ =>
    .error (.exn "TypeError: missing required argument value")

/-- The test module defining `SimpleEnum`, importable at decode time. -/
def enumTestModule : PyModule :=
  ⟨"tests.unit.test_enum_serialization", [("SimpleEnum", simpleEnumClass)]⟩

/-- The state of the enum error-handling test: the enum module is
importable, nothing is registered. -/
def enumCtx : DecodeCtx where
  decoderGlobals := jsonDecoderGlobalsModules
  sysModules := [("tests.unit.test_enum_serialization", enumTestModule)]
  registry := []
  importable := [("tests.unit.test_enum_serialization", enumTestModule)]
  decoders := []
  isFallbackEnabled := IS_DECODER_FALLBACK_ENABLED

/-- The malformed enum node of
`TestEnumErrorHandling.test_enum_with_invalid_name`: the member name
`INVALID_NAME` does not exist on `SimpleEnum`. -/
def invalidEnumNode : PyDict :=
  [("__class__", .vStr "SimpleEnum"),
   ("__module__", .vStr "tests.unit.test_enum_serialization"),
   ("_name_", .vStr "INVALID_NAME"), ("_value_", .vStr "invalid_value")]

/-- C5 (evaluating the code at the failing input): `universal_decoder`
has no enum reconstruction branch, so the malformed enum node falls
through every strategy and is returned as the tag-stripped content
mapping — no exception is raised, contradicting the claim (and the
own test of the repository, which expects a raise). -/
theorem enum_invalid_name_returns_dict :
    universal_decoder enumCtx invalidEnumNode =
      (.ok
        (.vDict
          [("_name_", .vStr "INVALID_NAME"), ("_value_", .vStr "invalid_value")]),
        [("_name_", .vStr "INVALID_NAME"), ("_value_", .vStr "invalid_value")]) :=
  rfl

/-! ### C6: nodes carrying only one reserved key -/

/-- C6 counterexample: a node carrying only the `__module__` reserved
key is returned unchanged — no malformed-tagged-node decode error is
reported, because `universal_decoder` only tests for `__class__`. -/
theorem malformed_single_key_counterexample :
    universal_decoder emptyCtx [("__module__", .vStr "mymod"), ("x", .vInt 1)] =
      (.ok (.vDict [("__module__", .vStr "mymod"), ("x", .vInt 1)]),
        [("__module__", .vStr "mymod"), ("x", .vInt 1)]) :=
  rfl

/-- C6 (amended): a node with `__module__` but no `__class__` is
treated as untagged and returned unchanged; a node with `__class__` but
no `__module__` raises the low-level `KeyError` of the second `pop`,
not a malformed-tagged-node decode error. -/
theorem malformed_single_key_amended (ctx : DecodeCtx) (d : PyDict) :
    (dictGet d "__class__" = none →
      universal_decoder ctx d = (.ok (.vDict d), d)) ∧
    (∀ cv, dictGet d "__class__" = some cv →
      dictGet (dictRemove d "__class__") "__module__" = none →
      universal_decoder ctx d =
        (.error (.keyError "__module__"), dictRemove d "__class__")) := by
  constructor
  · intro h
    unfold universal_decoder
    simp only [h]
  · intro cv h1 h2
    unfold universal_decoder
    simp only [h1, h2]

/-- Witness for C6 (amended), at one node of each malformed shape. -/
theorem malformed_single_key_amended_witness :
    universal_decoder emptyCtx [("__module__", .vStr "m")] =
      (.ok (.vDict [("__module__", .vStr "m")]), [("__module__", .vStr "m")]) ∧
    universal_decoder emptyCtx [("__class__", .vStr "X")] =
      (.error (.keyError "__module__"), []) :=
  ⟨(malformed_single_key_amended emptyCtx [("__module__", .vStr "m")]).1 rfl,
    (malformed_single_key_amended emptyCtx [("__class__", .vStr "X")]).2
      (.vStr "X") rfl rfl⟩

/-! ### C7: fail-fast default for strategy failures -/

/-- C7: the decoder fallback flag is initialised off; with it off, a
registered decoding function that raises turns into an immediate
`KajsonDecoderError` whose message embeds the function name and the
type name; only with the flag on does the chain continue to the next
strategy (after a warning). -/
theorem decoder_failfast_default (ctx : DecodeCtx) (c : PyClass)
    (d : PyDict) (entry : DecoderEntry) (e : PyError)
    (hfind : assocFind ctx.decoders c.key = some entry)
    (hfail : entry.fn d = .error e) :
    IS_DECODER_FALLBACK_ENABLED = false ∧
    (ctx.isFallbackEnabled = false →
      decodeForClass ctx c d =
        .error
          (.kajsonDecoderError
            (decodingFunctionFailedMsg entry.funcName c.name (errText e)))) ∧
    (∃ s1 s2 s3,
      decodingFunctionFailedMsg entry.funcName c.name (errText e) =
        s1 ++ entry.funcName ++ s2 ++ c.name ++ s3) ∧
    (ctx.isFallbackEnabled = true →
      decodeForClass ctx c d = decodeStageHook ctx c d) := by
  refine ⟨rfl, ?_, ⟨"Decoding function ", " used for type ",
    " raised an exception: " ++ errText e ++ ".", ?_⟩, ?_⟩
  · intro hflag
    unfold decodeForClass
    simp only [hfind, hfail, hflag, Bool.false_eq_true, if_false]
  · unfold decodingFunctionFailedMsg
    simp [String.append_assoc]
  · intro hflag
    unfold decodeForClass
    simp only [hfind, hfail, hflag, if_true]

/-- A decoding function that always raises, registered for `str`, as in
the decoder unit tests. -/
def failingEntry : DecoderEntry :=
  ⟨"failing_decoder", fun _ => .error (.exn "ValueError: Decoder failed")⟩

/-- The `str` class as the decoder probes it. -/
def strClass : PyClass := plainClass "str" "builtins.str"

/-- State with the failing decoder registered and the fallback flag at
its default. -/
def c7CtxOff : DecodeCtx where
  decoderGlobals := jsonDecoderGlobalsModules
  sysModules := []
  registry := []
  importable := []
  decoders := [("builtins.str", failingEntry)]
  isFallbackEnabled := IS_DECODER_FALLBACK_ENABLED

/-- The same state with the fallback flag explicitly enabled. -/
def c7CtxOn : DecodeCtx := { c7CtxOff with isFallbackEnabled := true }

/-- Witness for C7: with the flag off the failing registered decoder is
fatal with the message naming function and type; with it on, the chain
continues. -/
theorem decoder_failfast_default_witness :
    decodeForClass c7CtxOff strClass [("value", .vStr "test")] =
      .error
        (.kajsonDecoderError
          (decodingFunctionFailedMsg "failing_decoder" "str"
            (errText (.exn "ValueError: Decoder failed")))) ∧
    decodeForClass c7CtxOn strClass [("value", .vStr "test")] =
      decodeStageHook c7CtxOn strClass [("value", .vStr "test")] :=
  ⟨(decoder_failfast_default c7CtxOff strClass [("value", .vStr "test")]
      failingEntry (.exn "ValueError: Decoder failed") rfl rfl).2.1 rfl,
    (decoder_failfast_default c7CtxOn strClass [("value", .vStr "test")]
      failingEntry (.exn "ValueError: Decoder failed") rfl rfl).2.2.2 rfl⟩

/-! ### C8 and C9: the manager singleton -/

/-- C8 (evaluating the code at the failing state): after a teardown —
or in a process that never constructed a manager — the registry
accessor `get_class_registry` raises
`RuntimeError("KajsonManager is not initialized")` instead of
constructing a default registry, contradicting the claim and the
own test of the repository,
`TestKajsonManager.test_get_class_registry_creates_if_needed`. -/
theorem get_class_registry_uninitialized_raises :
    kajsonManagerGetClassRegistry
        (kajsonManagerTeardown (some ⟨[("Point", pointRegistryClass)]⟩)) =
      .error (.runtimeError "KajsonManager is not initialized") ∧
    kajsonManagerGetClassRegistry none =
      .error (.runtimeError "KajsonManager is not initialized") :=
  ⟨rfl, rfl⟩

/-- C9: every `KajsonManager.__init__` call unconditionally overwrites
the class-level `_instance` with the freshly constructed manager — for
every prior class state, including a live previous manager — so
`get_class_registry` afterwards returns exactly the registry passed to
the constructor (or a fresh default `ClassRegistry`, modelled from the
spec as an empty table, when none is given); construction is total
(never rejected) and the held instance is the new object, never the
previous one. -/
theorem kajson_manager_ctor_last_wins (s : ManagerClassState)
    (reg : ClassRegistryModel) :
    (kajsonManagerCreate (some reg) s).2 =
      some (kajsonManagerCreate (some reg) s).1 ∧
    (kajsonManagerCreate (some reg) s).1.classRegistry = reg ∧
    kajsonManagerGetClassRegistry (kajsonManagerCreate (some reg) s).2 =
      .ok reg ∧
    (kajsonManagerCreate none s).2 = some (kajsonManagerCreate none s).1 ∧
    (kajsonManagerCreate none s).1.classRegistry = [] ∧
    kajsonManagerGetClassRegistry (kajsonManagerCreate none s).2 = .ok [] :=
  ⟨rfl, rfl, rfl, rfl, rfl, rfl⟩

/-- Witness for C9: constructing over a live previous manager replaces
it, and the accessor then returns the injected registry. -/
theorem kajson_manager_ctor_last_wins_witness :
    kajsonManagerGetClassRegistry
        (kajsonManagerCreate (some [("Point", pointRegistryClass)])
            (some ⟨[]⟩)).2 =
      .ok [("Point", pointRegistryClass)] :=
  (kajson_manager_ctor_last_wins (some ⟨[]⟩)
      [("Point", pointRegistryClass)]).2.2.1

/-! ### C10: the decoder mutates its input mapping in place -/

theorem universal_decoder_tagged_eq (ctx : DecodeCtx) (d : PyDict)
    (cv mv : PyValue) (h : dictGet d "__class__" = some cv)
    (hm : dictGet (dictRemove d "__class__") "__module__" = some mv) :
    universal_decoder ctx d =
      (match resolveClass ctx mv cv with
        | .error e => .error e
        | .ok c => decodeForClass ctx c (stripTags d), stripTags d) := by
  unfold universal_decoder stripTags
  simp only [h, hm]
  rcases resolveClass ctx mv cv with e | c <;> rfl

theorem universal_decoder_snd (ctx : DecodeCtx) (d : PyDict)
    (cv : PyValue) (h : dictGet d "__class__" = some cv) :
    (universal_decoder ctx d).2 = stripTags d := by
  rcases hm : dictGet (dictRemove d "__class__") "__module__" with _ | mv
  · have heq : universal_decoder ctx d =
        (.error (.keyError "__module__"), dictRemove d "__class__") := by
      unfold universal_decoder
      simp only [h, hm]
    rw [heq]
    show dictRemove d "__class__" = stripTags d
    unfold stripTags
    rw [dictRemove_of_not_mem _ _ hm]
  · rw [universal_decoder_tagged_eq ctx d cv mv h hm]

/-- C10: for every dict passed to `universal_decoder` that contains the
`__class__` key, the call leaves that same dict object holding exactly
the content with both reserved keys removed — whichever strategy
succeeds or fails, and also when the call raises — with every other key
untouched; and in the last-resort degrade case the returned value is
that same mutated dict. -/
theorem decoder_strips_tags_in_place (ctx : DecodeCtx) (d : PyDict)
    (cv : PyValue) (h : dictGet d "__class__" = some cv) :
    (universal_decoder ctx d).2 = stripTags d ∧
    dictGet (universal_decoder ctx d).2 "__class__" = none ∧
    dictGet (universal_decoder ctx d).2 "__module__" = none ∧
    (∀ k, k ≠ "__class__" → k ≠ "__module__" →
      dictGet (universal_decoder ctx d).2 k = dictGet d k) ∧
    (∀ mv c e1 e2,
      dictGet (dictRemove d "__class__") "__module__" = some mv →
      resolveClass ctx mv cv = .ok c →
      assocFind ctx.decoders c.key = none →
      c.jsonDecodeHook = none →
      c.isRootModel = false →
      c.isBaseModel = false →
      c.ctorKwargs (stripTags d) = .error e1 →
      c.ctorDefaultPopulate (stripTags d) = .error e2 →
      (universal_decoder ctx d).1 = .ok (.vDict ((universal_decoder ctx d).2))) := by
  have hsnd := universal_decoder_snd ctx d cv h
  refine ⟨hsnd, ?_, ?_, ?_, ?_⟩
  · rw [hsnd]
    unfold stripTags
    rw [dictGet_dictRemove_other _ _ _ (by decide)]
    exact dictGet_dictRemove_self _ _
  · rw [hsnd]
    exact dictGet_dictRemove_self _ _
  · intro k hk1 hk2
    rw [hsnd]
    unfold stripTags
    rw [dictGet_dictRemove_other _ _ _ hk2, dictGet_dictRemove_other _ _ _ hk1]
  · intro mv c e1 e2 hm hres h1 h2 h3 h4 h5 h6
    have heq := universal_decoder_degrade_aux ctx d cv mv c e1 e2 h hm hres
      h1 h2 h3 h4 h5 h6
    rw [heq]

/-- Witness for C10 at the `Widget` node: the dict of the caller ends up
tag-stripped with the other key intact, and the degrade case returns
that same dict. -/
theorem decoder_strips_tags_in_place_witness :
    (universal_decoder c4Ctx
        [("__class__", .vStr "Widget"), ("__module__", .vStr "ghost_mod"),
          ("a", .vInt 1)]).2 =
      stripTags
        [("__class__", .vStr "Widget"), ("__module__", .vStr "ghost_mod"),
          ("a", .vInt 1)] ∧
    (universal_decoder c4Ctx
        [("__class__", .vStr "Widget"), ("__module__", .vStr "ghost_mod"),
          ("a", .vInt 1)]).1 =
      .ok
        (.vDict
          ((universal_decoder c4Ctx
              [("__class__", .vStr "Widget"), ("__module__", .vStr "ghost_mod"),
                ("a", .vInt 1)]).2)) := by
  have hfull := decoder_strips_tags_in_place c4Ctx
    [("__class__", .vStr "Widget"), ("__module__", .vStr "ghost_mod"),
      ("a", .vInt 1)] (.vStr "Widget") rfl
  exact ⟨hfull.1,
    hfull.2.2.2.2 (.vStr "ghost_mod") widgetClass
      (.exn "TypeError: unexpected keyword arguments")
      (.exn "TypeError: missing required arguments")
      rfl rfl rfl rfl rfl rfl rfl rfl⟩

end Kajson
